import Mathlib

/-!
Shallow embedding of the locale-resolution translator of this repository
(`src/utils/command_tree.py`, class `JDCommandTranslator`), together with
theorems settling the claims about it.

Python dictionaries are modelled as association lists over `String` keys,
Python `str.split(sep)` / `str.startswith` / `str.lower` / `int(...)` /
list indexing are modelled by the `py*` helpers below, and Python
truthiness of the optional JSON values is modelled by the `*truthy`
functions.  Raised `ValueError`s / `KeyError`s / `IndexError`s are
modelled by the `TranslateError` sum type and `Except`.
-/

/-- Python `str.split(c)` for a one-character separator: splits on every
occurrence of the separator, keeping empty segments. -/
def splitCharAux (c : Char) : List Char → List Char → List (List Char)
  | [], acc => [acc.reverse]
  | x :: xs, acc =>
    if x = c then acc.reverse :: splitCharAux c xs []
    else splitCharAux c xs (x :: acc)

def splitChar (s : String) (c : Char) : List String :=
  (splitCharAux c s.toList []).map List.asString

/-- Python `s.startswith(p)`. -/
def pyStartsWith (s p : String) : Bool := p.toList.isPrefixOf s.toList

/-- Python `s.endswith(p)`. -/
def pyEndsWith (s p : String) : Bool := p.toList.isSuffixOf s.toList

/-- Python `s.lower()` (ASCII case folding suffices for the keys used here). -/
def pyLower (s : String) : String := (s.toList.map Char.toLower).asString

/-- Python `s.strip()`. -/
def pyStrip (s : String) : String :=
  (((s.toList.dropWhile Char.isWhitespace).reverse.dropWhile Char.isWhitespace).reverse).asString

def parseDigitsAux : List Char → Nat → Option Nat
  | [], acc => some acc
  | ch :: cs, acc =>
    if ch.isDigit then parseDigitsAux cs (acc * 10 + (ch.toNat - 48)) else none

/-- A non-empty all-digit character run, as a number. -/
def parseDigits : List Char → Option Nat
  | [] => none
  | cs => parseDigitsAux cs 0

/-- Python `int(s)` on a decimal string: optional surrounding whitespace,
an optional sign, then at least one digit; `none` models the raised
`ValueError: invalid literal for int()`. -/
def pyInt (s : String) : Option Int :=
  match (pyStrip s).toList with
  | '-' :: cs => (parseDigits cs).map fun n => -(n : Int)
  | '+' :: cs => (parseDigits cs).map fun n => (n : Int)
  | cs => (parseDigits cs).map fun n => (n : Int)

/-- Python `l[i]` on a list: non-negative indices from the front, negative
indices from the back, `none` models the raised `IndexError`. -/
def pyListGet {α : Type} (l : List α) (i : Int) : Option α :=
  if 0 ≤ i then l.get? i.toNat
  else if (-i).toNat ≤ l.length then l.get? (l.length - (-i).toNat)
  else none

/-- Python `d.get(k)` / `d[k]` lookup on a string-keyed dict, modelled on
an association list (first binding wins, as `dictSet` keeps keys unique). -/
def dictGet {α : Type} : List (String × α) → String → Option α
  | [], _ => none
  | (k, v) :: rest, q => if k = q then some v else dictGet rest q

/-- Python `d[k] = v` on a string-keyed dict. -/
def dictSet {α : Type} : List (String × α) → String → α → List (String × α)
  | [], k, v => [(k, v)]
  | (k', v') :: rest, k, v =>
    if k' = k then (k, v) :: rest else (k', v') :: dictSet rest k v

/-- Python truthiness of an optional string (`None` and `""` are falsy). -/
def strTruthy : Option String → Bool
  | none => false
  | some s => !(s == "")

/-- Python `a or b` on optional strings. -/
def pyOrStr (a b : Option String) : Option String :=
  if strTruthy a then a else b

/-- Python truthiness of an optional list (`None` and `[]` are falsy). -/
def listTruthy {α : Type} : Option (List α) → Bool
  | none => false
  | some l => !l.isEmpty

deriving instance DecidableEq for Except

/-! ## The locale-document data model (the `TypedDict`s of the source)

A `none` field models a key that is absent from the JSON dict. -/

structure LocaleCommandEmbedAuthor where
  name : Option String := none
  deriving DecidableEq

structure LocaleCommandEmbedFooter where
  text : Option String := none
  deriving DecidableEq

structure LocaleComamndEmbedField where
  name : Option String := none
  value : Option String := none
  deriving DecidableEq

structure LocaleCommandEmbed where
  title : Option String := none
  description : Option String := none
  fields : Option (List LocaleComamndEmbedField) := none
  footer : Option LocaleCommandEmbedFooter := none
  author : Option LocaleCommandEmbedAuthor := none
  deriving DecidableEq

structure LocaleCommandOption where
  name : Option String := none
  description : Option String := none
  choices : Option (List String) := none
  deriving DecidableEq

structure LocaleCommand where
  name : Option String := none
  description : Option String := none
  options : Option (List (String × LocaleCommandOption)) := none
  embeds : Option (List LocaleCommandEmbed) := none
  content : Option String := none
  deriving DecidableEq

/-- Python truthiness of the embed dict: truthy iff some key is present. -/
def LocaleCommandEmbed.truthy (e : LocaleCommandEmbed) : Bool :=
  e.title.isSome || e.description.isSome || e.fields.isSome ||
    e.footer.isSome || e.author.isSome

def LocaleComamndEmbedField.truthy (f : LocaleComamndEmbedField) : Bool :=
  f.name.isSome || f.value.isSome

def LocaleCommandOption.truthy (o : LocaleCommandOption) : Bool :=
  o.name.isSome || o.description.isSome || o.choices.isSome

def LocaleCommand.truthy (c : LocaleCommand) : Bool :=
  c.name.isSome || c.description.isSome || c.options.isSome ||
    c.embeds.isSome || c.content.isSome

/-! ## The discord collaborator model

The locale identifier type is the injected enumeration of supported locale
tags (`discord.Locale`); locales are carried as their string values and
validated against the enumeration's value set. -/

def discordLocales : List String :=
  ["id", "da", "de", "en-GB", "en-US", "es-ES", "es-419", "fr", "hr", "it",
   "lt", "hu", "nl", "no", "pl", "pt-BR", "ro", "fi", "sv-SE", "vi", "tr",
   "cs", "el", "bg", "ru", "uk", "hi", "th", "zh-CN", "ja", "zh-TW", "ko"]

/-- Validation `discord.Locale(stem)` succeeds exactly on these values. -/
def isValidLocale (s : String) : Bool := discordLocales.contains s

/-- The enumeration `discord.app_commands.TranslationContextLocation`. -/
inductive TranslationContextLocation where
  | command_name
  | command_description
  | group_name
  | group_description
  | parameter_name
  | parameter_description
  | choice_name
  | other
  deriving DecidableEq

/-- The `f"{context.location}"` rendering used in an error message. -/
def TranslationContextLocation.pyStr : TranslationContextLocation → String
  | .command_name => "TranslationContextLocation.command_name"
  | .command_description => "TranslationContextLocation.command_description"
  | .group_name => "TranslationContextLocation.group_name"
  | .group_description => "TranslationContextLocation.group_description"
  | .parameter_name => "TranslationContextLocation.parameter_name"
  | .parameter_description => "TranslationContextLocation.parameter_description"
  | .choice_name => "TranslationContextLocation.choice_name"
  | .other => "TranslationContextLocation.other"

/-- The field `context.data`, as the tagged union of the runtime `isinstance` checks
of the source: a command / context menu / group (carrying its
`qualified_name`), a parameter (carrying its owning command's
`qualified_name`), `None`, or any other value. -/
inductive ContextData where
  | noData
  | command (qualified_name : String)
  | contextMenu (qualified_name : String)
  | group (qualified_name : String)
  | parameter (command_qualified_name : String)
  | otherData
  deriving DecidableEq

/-- The entries of the `locale_str` extras bag that the translator reads. -/
structure Extras where
  command : Option String := none
  key : Option String := none
  index : Option Int := none
  option : Option String := none
  deriving DecidableEq

/-- The type `discord.app_commands.locale_str`: the source-language message
plus the extras bag. -/
structure LocaleStr where
  message : String
  extras : Extras := {}
  deriving DecidableEq

structure TranslationContext where
  location : TranslationContextLocation
  data : ContextData
  deriving DecidableEq

/-- The errors the translator can raise (`ValueError` / `KeyError` /
`FileNotFoundError` / `IndexError`), named after the spec's error
taxonomy; message-carrying constructors hold the formatted message. -/
inductive TranslateError where
  | invalidLocaleFile (msg : String)
  | keyError (locale : String)
  | fileNotFound (path : String)
  | malformedLocaleFile (path : String)
  | missingCommandName (msg : String)
  | missingKey (msg : Option String)
  | missingChoiceMetadata (msg : String)
  | invalidEmbedKey (msg : String)
  | invalidEmbedField (msg : String)
  | invalidFieldType (msg : String)
  | intConversionError (literal : String)
  | indexError
  deriving DecidableEq

/-! ## The translator state

`LOCALE_TO_FILE` and `cached_locales` are the two dictionaries of
`JDCommandTranslator`; `fs` models the locale directory (file path to the
parsed content of the file — parsing is not the subject of any claim, so
the filesystem holds documents already in parsed form); `reads` is a ghost
log of the file reads performed, recording one entry per `open`. -/

structure TranslatorState where
  LOCALE_TO_FILE : List (String × String) := []
  cached_locales : List (String × List (String × LocaleCommand)) := []
  fs : List (String × List (String × LocaleCommand)) := []
  reads : List String := []
  deriving DecidableEq

def LOCALS_PATH : String := "./locales"

/-- The stem `file.split(".")[0]`. -/
def fileStem (file : String) : String := (splitChar file '.').headD ""

namespace JDCommandTranslator

/-- Method `JDCommandTranslator.get_locale`: return the cached per-command mapping
if present, else read and cache the registered file. -/
def get_locale (st : TranslatorState) (locale : String) :
    Except TranslateError (TranslatorState × List (String × LocaleCommand)) :=
  match dictGet st.cached_locales locale with
  | some d => .ok (st, d)
  | none =>
    match dictGet st.LOCALE_TO_FILE locale with
    | none => .error (.keyError locale)
    | some file =>
      match dictGet st.fs (LOCALS_PATH ++ "/" ++ file) with
      | none => .error (.fileNotFound (LOCALS_PATH ++ "/" ++ file))
      | some data =>
        .ok ({ st with
                cached_locales := dictSet st.cached_locales locale data,
                reads := st.reads ++ [LOCALS_PATH ++ "/" ++ file] }, data)

/-- Method `JDCommandTranslator.unload`: clear both dictionaries. -/
def unload (st : TranslatorState) : TranslatorState :=
  { st with cached_locales := [], LOCALE_TO_FILE := [] }

/-- Method `JDCommandTranslator.load`: scan the directory listing; for each
`.json` file validate the stem, register the file and eagerly load the
locale; a raised error aborts the scan, keeping the state mutated so far. -/
def load : List String → TranslatorState → TranslatorState × Option TranslateError
  | [], st => (st, none)
  | file :: rest, st =>
    if pyEndsWith file ".json" then
      if isValidLocale (fileStem file) then
        match get_locale
            { st with LOCALE_TO_FILE := dictSet st.LOCALE_TO_FILE (fileStem file) file }
            (fileStem file) with
        | .ok (st2, _) => load rest st2
        | .error e =>
          ({ st with LOCALE_TO_FILE := dictSet st.LOCALE_TO_FILE (fileStem file) file },
           some e)
      else
        (st, some (.invalidLocaleFile
          ("Invalid locale file " ++ file ++ ". Expected a file like `en-US.json`.")))
    else load rest st

/-- Method `JDCommandTranslator.get_command`. -/
def get_command (st : TranslatorState) (locale command_name : String) :
    Except TranslateError (TranslatorState × Option LocaleCommand) :=
  match get_locale st locale with
  | .error e => .error e
  | .ok (st1, docs) => .ok (st1, dictGet docs command_name)

/-- The `isinstance` chain of `translate` deriving a command qualified name
from `context.data`. -/
def derivedCommandName : ContextData → Option String
  | .command q => some q
  | .contextMenu q => some q
  | .group q => some q
  | .parameter cq => some cq
  | _ => none

/-- The assignment `command_name = string.extras.get("command") or command_name`. -/
def resolveCommandName (extras : Extras) (data : ContextData) : Option String :=
  pyOrStr extras.command (derivedCommandName data)

def embedKeyMessage (key : String) : String :=
  "Invalid type for embed. Expected `embed:<index>:<field>`. Got " ++ key ++
    ". Example: `embed:0:title`."

def embedFieldsKeyMessage (key : String) : String :=
  "Invalid type for embed. Expected `embed:<index>:fields:<field_index>:name`. Got " ++
    key ++ ". Example: `embed:0:fields:0:name`."

def choiceIndexMessage : String :=
  "Choice name requires you to pass the index in extras. Like `locale_str('key', index=0)`"

def choiceOptionMessage : String :=
  "Choice name requires you to pass the option name in extras. Like `locale_str('key', option='option')`"

/-- The location dispatch of `translate` (source lines 170-261), entered
with the non-falsy `LocaleCommand` found for the resolved command name. -/
def translateLocation (st : TranslatorState) (string : LocaleStr)
    (command : LocaleCommand) (location : TranslationContextLocation) :
    Except TranslateError (TranslatorState × Option String) :=
  if location = .command_name ∨ location = .parameter_name then
    .ok (st, command.name)
  else if location = .command_description ∨ location = .group_description then
    .ok (st, command.description)
  else if location = .parameter_name ∨ location = .parameter_description then
    match dictGet (command.options.getD []) string.message with
    | none => .ok (st, none)
    | some parameter =>
      if parameter.truthy = false then .ok (st, none)
      else if location = .parameter_name then .ok (st, parameter.name)
      else .ok (st, parameter.description)
  else if location = .choice_name then
    match string.extras.index with
    | none => .error (.missingChoiceMetadata choiceIndexMessage)
    | some idx =>
      if strTruthy string.extras.option = false then
        .error (.missingChoiceMetadata choiceOptionMessage)
      else
        match ((dictGet (command.options.getD [])
            (string.extras.option.getD "")).getD {}).choices with
        | choices =>
          if listTruthy choices = false then .ok (st, none)
          else
            match pyListGet (choices.getD []) idx with
            | some choice => .ok (st, some choice)
            | none => .error .indexError
  else if location = .other then
    match (pyOrStr string.extras.key (some "")).getD "" with
    | key =>
      if key = "" then
        .error (.missingKey (some
          "locale_str for location other requires you to pass the type in extras. Like `locale_str('string', key='type')`"))
      else if pyStartsWith key "embed" then
        match splitChar key ':' with
        | _ :: idxStr :: fieldStr :: fields_extra =>
          match pyInt idxStr with
          | none => .error (.intConversionError idxStr)
          | some idx =>
            match pyListGet (command.embeds.getD [{}]) idx with
            | none => .error .indexError
            | some embed =>
              if embed.truthy = false then .ok (st, none)
              else if pyLower fieldStr = "title" then .ok (st, embed.title)
              else if pyLower fieldStr = "description" then .ok (st, embed.description)
              else if pyLower fieldStr = "footer" then
                .ok (st, (embed.footer.getD {}).text)
              else if pyLower fieldStr = "author" then
                .ok (st, (embed.author.getD {}).name)
              else if pyLower fieldStr = "fields" then
                if fields_extra.isEmpty then
                  .error (.invalidEmbedKey (embedFieldsKeyMessage key))
                else
                  match fields_extra with
                  | [fieldIdxStr, field_type] =>
                    match pyInt fieldIdxStr with
                    | none => .error (.intConversionError fieldIdxStr)
                    | some field_idx =>
                      match pyListGet (embed.fields.getD [{}]) field_idx with
                      | none => .error .indexError
                      | some fld =>
                        if fld.truthy = false then .ok (st, none)
                        else if field_type = "name" then .ok (st, fld.name)
                        else if field_type = "value" then .ok (st, fld.value)
                        else
                          .error (.invalidFieldType
                            ("Field type " ++ field_type ++
                              " is not valid. Expected `name` or `value`."))
                  | _ => .error (.invalidEmbedKey (embedFieldsKeyMessage key))
              else
                .error (.invalidEmbedField
                  ("Field " ++ pyLower fieldStr ++
                    " is not valid. Expected `title`, `description`, `footer`, `author` or `fields`."))
        | _ => .error (.invalidEmbedKey (embedKeyMessage key))
      else if key = "content" then .ok (st, command.content)
      else .ok (st, none)
  else .ok (st, none)

/-- Method `JDCommandTranslator.translate` (source lines 130-261). -/
def translate (st : TranslatorState) (string : LocaleStr) (locale : String)
    (context : TranslationContext) :
    Except TranslateError (TranslatorState × Option String) :=
  if (dictGet st.LOCALE_TO_FILE locale).isNone then .ok (st, none)
  else
    match resolveCommandName string.extras context.data with
    | command_name =>
      if strTruthy command_name = false then
        .error (.missingCommandName
          ("locale_str for location " ++ context.location.pyStr ++
            " requires you to pass thecommand name in extras. Like `locale_str('key', command='command name')` or a command/parameter as context.data."))
      else if context.location = .other ∧ strTruthy string.extras.key = false then
        .error (.missingKey none)
      else if strTruthy command_name = false then
        .error (.missingCommandName
          "Command name is not provided. Expected a command name in context.data or extras.")
      else
        match get_command st locale (command_name.getD "") with
        | .error e => .error e
        | .ok (st1, none) => .ok (st1, none)
        | .ok (st1, some command) =>
          if command.truthy = false then .ok (st1, none)
          else translateLocation st1 string command context.location

end JDCommandTranslator

/-! ## Helper lemmas -/

theorem dictGet_dictSet {α : Type} (d : List (String × α)) (k q : String) (v : α) :
    dictGet (dictSet d k v) q = if k = q then some v else dictGet d q := by
  induction d with
  | nil => simp [dictSet, dictGet]
  | cons a rest ih =>
    obtain ⟨k', v'⟩ := a
    by_cases hk : k' = k
    · subst hk
      by_cases hq : k' = q <;> simp [dictSet, dictGet, hq]
    · by_cases hq : k' = q
      · subst hq
        have hkq : ¬ k = k' := fun h => hk h.symm
        simp [dictSet, dictGet, hk, hkq]
      · simp [dictSet, dictGet, hk, hq, ih]

theorem pyListGet_nil {α : Type} (i : Int) : pyListGet ([] : List α) i = none := by
  unfold pyListGet
  split
  · simp
  · split <;> simp

theorem get_locale_effect (st st1 : TranslatorState) (L : String)
    (d : List (String × LocaleCommand))
    (h : JDCommandTranslator.get_locale st L = .ok (st1, d)) :
    st1.LOCALE_TO_FILE = st.LOCALE_TO_FILE ∧ st1.fs = st.fs ∧
    dictGet st1.cached_locales L = some d ∧
    (st1.cached_locales = st.cached_locales ∨
      st1.cached_locales = dictSet st.cached_locales L d) ∧
    (st1.reads = st.reads ∨ ∃ p, st1.reads = st.reads ++ [p]) := by
  unfold JDCommandTranslator.get_locale at h
  cases hc : dictGet st.cached_locales L with
  | some d0 =>
    simp only [hc, Except.ok.injEq, Prod.mk.injEq] at h
    obtain ⟨rfl, rfl⟩ := h
    exact ⟨rfl, rfl, hc, Or.inl rfl, Or.inl rfl⟩
  | none =>
    cases hf : dictGet st.LOCALE_TO_FILE L with
    | none => simp [hc, hf] at h
    | some file =>
      cases hfs : dictGet st.fs (LOCALS_PATH ++ "/" ++ file) with
      | none => simp [hc, hf, hfs] at h
      | some data =>
        simp only [hc, hf, hfs, Except.ok.injEq, Prod.mk.injEq] at h
        obtain ⟨rfl, rfl⟩ := h
        refine ⟨rfl, rfl, ?_, Or.inr rfl, Or.inr ⟨_, rfl⟩⟩
        rw [dictGet_dictSet]
        simp

theorem get_locale_cache_hit (st : TranslatorState) (L : String)
    (d : List (String × LocaleCommand))
    (h : dictGet st.cached_locales L = some d) :
    JDCommandTranslator.get_locale st L = .ok (st, d) := by
  unfold JDCommandTranslator.get_locale
  rw [h]

theorem resolveCommandName_extras (extras : Extras) (data : ContextData) (c : String)
    (h1 : extras.command = some c) (h2 : ¬ c = "") :
    JDCommandTranslator.resolveCommandName extras data = some c := by
  simp [JDCommandTranslator.resolveCommandName, pyOrStr, strTruthy, h1, h2]

theorem translate_cached (st : TranslatorState) (s : LocaleStr) (locale file : String)
    (docs : List (String × LocaleCommand)) (cmdName : String) (cmd : LocaleCommand)
    (loc : TranslationContextLocation) (d : ContextData)
    (h1 : dictGet st.LOCALE_TO_FILE locale = some file)
    (h2 : dictGet st.cached_locales locale = some docs)
    (h3 : s.extras.command = some cmdName)
    (h4 : ¬ cmdName = "")
    (h5 : dictGet docs cmdName = some cmd)
    (h6 : cmd.truthy = true)
    (h7 : loc = TranslationContextLocation.other → strTruthy s.extras.key = true) :
    JDCommandTranslator.translate st s locale ⟨loc, d⟩ =
      JDCommandTranslator.translateLocation st s cmd loc := by
  have hrc : JDCommandTranslator.resolveCommandName s.extras d = some cmdName :=
    resolveCommandName_extras s.extras d cmdName h3 h4
  have hget : JDCommandTranslator.get_command st locale cmdName = .ok (st, dictGet docs cmdName) := by
    unfold JDCommandTranslator.get_command
    rw [get_locale_cache_hit st locale docs h2]
  unfold JDCommandTranslator.translate
  rw [h1]
  simp only [Option.isSome_some, Option.isNone_some, if_false, hrc]
  have hst : strTruthy (some cmdName) = true := by simp [strTruthy, h4]
  by_cases hloc : loc = TranslationContextLocation.other
  · simp [hst, hloc, h7 hloc, hget, h5, h6]
  · simp [hst, hloc, hget, h5, h6]

theorem load_mono (files : List String) (st : TranslatorState) (k : String)
    (h1 : (dictGet st.LOCALE_TO_FILE k).isSome = true)
    (h2 : (dictGet st.cached_locales k).isSome = true) :
    (dictGet (JDCommandTranslator.load files st).1.LOCALE_TO_FILE k).isSome = true ∧
    (dictGet (JDCommandTranslator.load files st).1.cached_locales k).isSome = true := by
  induction files generalizing st with
  | nil => exact ⟨h1, h2⟩
  | cons f rest ih =>
    unfold JDCommandTranslator.load
    by_cases hj : pyEndsWith f ".json" = true
    · by_cases hv : isValidLocale (fileStem f) = true
      · have h1' : (dictGet (dictSet st.LOCALE_TO_FILE (fileStem f) f) k).isSome = true := by
          rw [dictGet_dictSet]
          split <;> simp [h1]
        cases hg : JDCommandTranslator.get_locale
            { st with LOCALE_TO_FILE := dictSet st.LOCALE_TO_FILE (fileStem f) f }
            (fileStem f) with
        | ok p =>
          obtain ⟨st2, data⟩ := p
          obtain ⟨e1, _, _, e4, _⟩ := get_locale_effect _ _ _ _ hg
          simp only [hj, hv, hg, if_true]
          apply ih st2
          · rw [e1]; exact h1'
          · rcases e4 with e4 | e4 <;> rw [e4]
            · exact h2
            · rw [dictGet_dictSet]
              split <;> simp [h2]
        | error e =>
          simp only [hj, hv, hg, if_true]
          exact ⟨h1', h2⟩
      · simp only [hj, if_true, hv, if_false]
        exact ⟨h1, h2⟩
    · simp only [hj, if_false]
      exact ih st h1 h2

theorem get_locale_total (st : TranslatorState) (L : String)
    (hreg : (dictGet st.LOCALE_TO_FILE L).isSome = true)
    (hfs : ∀ file, dictGet st.LOCALE_TO_FILE L = some file →
        (dictGet st.fs (LOCALS_PATH ++ "/" ++ file)).isSome = true) :
    ∃ st2 data, JDCommandTranslator.get_locale st L = .ok (st2, data) := by
  unfold JDCommandTranslator.get_locale
  cases hc : dictGet st.cached_locales L with
  | some d0 => exact ⟨st, d0, by simp [hc]⟩
  | none =>
    cases hf : dictGet st.LOCALE_TO_FILE L with
    | none => rw [hf] at hreg; simp at hreg
    | some file =>
      cases hfs2 : dictGet st.fs (LOCALS_PATH ++ "/" ++ file) with
      | none => have hx := hfs file hf; rw [hfs2] at hx; simp at hx
      | some data =>
        refine ⟨?_, data, ?_⟩
        · exact { st with cached_locales := dictSet st.cached_locales L data, reads := st.reads ++ [LOCALS_PATH ++ "/" ++ file] }
        · simp [hc, hf, hfs2]

/-- A file that `load` can process successfully against the directory `st.fs`. -/
def loadOk (st : TranslatorState) (f : String) : Prop :=
  pyEndsWith f ".json" = true ∧ isValidLocale (fileStem f) = true ∧
    (dictGet st.fs (LOCALS_PATH ++ "/" ++ f)).isSome = true

instance (st : TranslatorState) (f : String) : Decidable (loadOk st f) := by
  unfold loadOk; infer_instance

theorem c9_load_partial_state (good : List String) (bad : String) (rest : List String)
    (st : TranslatorState)
    (hg : ∀ f ∈ good, loadOk st f)
    (hb1 : pyEndsWith bad ".json" = true)
    (hb2 : isValidLocale (fileStem bad) = false) :
    (JDCommandTranslator.load (good ++ bad :: rest) st).2 =
      some (.invalidLocaleFile
        ("Invalid locale file " ++ bad ++ ". Expected a file like `en-US.json`.")) ∧
    ∀ f ∈ good,
      (dictGet (JDCommandTranslator.load (good ++ bad :: rest) st).1.LOCALE_TO_FILE
        (fileStem f)).isSome = true ∧
      (dictGet (JDCommandTranslator.load (good ++ bad :: rest) st).1.cached_locales
        (fileStem f)).isSome = true := by
  induction good generalizing st with
  | nil =>
    constructor
    · unfold JDCommandTranslator.load
      simp [hb1, hb2]
    · intro f hf
      exact absurd hf (List.not_mem_nil f)
  | cons f0 good' ih =>
    obtain ⟨hj0, hv0, hfs0⟩ := hg f0 (by simp)
    have hreg : dictGet (dictSet st.LOCALE_TO_FILE (fileStem f0) f0) (fileStem f0) =
        some f0 := by rw [dictGet_dictSet]; simp
    obtain ⟨st2, data, hgl⟩ :=
      get_locale_total
        { st with LOCALE_TO_FILE := dictSet st.LOCALE_TO_FILE (fileStem f0) f0 }
        (fileStem f0) (by rw [hreg]; simp)
        (by intro file hfile
            rw [hreg] at hfile
            injection hfile with hfile
            subst hfile
            exact hfs0)
    obtain ⟨e1, e2, e3, e4, _⟩ := get_locale_effect _ _ _ _ hgl
    have hload : JDCommandTranslator.load ((f0 :: good') ++ bad :: rest) st =
        JDCommandTranslator.load (good' ++ bad :: rest) st2 := by
      show JDCommandTranslator.load (f0 :: (good' ++ bad :: rest)) st = _
      conv_lhs => unfold JDCommandTranslator.load
      simp only [hj0, hv0, if_true, hgl]
    have hg' : ∀ f ∈ good', loadOk st2 f := by
      intro f hf
      obtain ⟨a, b, c⟩ := hg f (by simp [hf])
      exact ⟨a, b, by rw [e2]; exact c⟩
    obtain ⟨ihe, ihr⟩ := ih st2 hg'
    rw [hload]
    refine ⟨ihe, ?_⟩
    intro f hf
    rcases List.mem_cons.mp hf with rfl | hf'
    · apply load_mono
      · rw [e1]
        exact (by rw [hreg]; simp)
      · rw [e3]
        simp
    · exact ihr f hf'

/-! ## Claim C1 -/

/-- Claim C1: once `get_locale` has answered for a locale, a second call
returns the identical cached command-name-to-document mapping and the
identical state (so no further file read happens); the first call appended
at most one entry to the read log. -/
theorem c1_get_locale_idempotent_cache (st st1 : TranslatorState) (L : String)
    (d : List (String × LocaleCommand))
    (h : JDCommandTranslator.get_locale st L = Except.ok (st1, d)) :
    JDCommandTranslator.get_locale st1 L = Except.ok (st1, d) ∧
    (st1.reads = st.reads ∨ ∃ p, st1.reads = st.reads ++ [p]) := by
  obtain ⟨_, _, e3, _, e5⟩ := get_locale_effect st st1 L d h
  exact ⟨get_locale_cache_hit st1 L d e3, e5⟩

def w1Docs : List (String × LocaleCommand) := [("ping", { name := some "Ping!" })]

def w1St : TranslatorState :=
  { LOCALE_TO_FILE := [("en-US", "en-US.json")],
    fs := [("./locales/en-US.json", w1Docs)] }

def w1St1 : TranslatorState :=
  { LOCALE_TO_FILE := [("en-US", "en-US.json")],
    cached_locales := [("en-US", w1Docs)],
    fs := [("./locales/en-US.json", w1Docs)],
    reads := ["./locales/en-US.json"] }

/-- Witness for C1 at a concrete state whose first `get_locale` call reads
the file. -/
theorem c1_witness :
    JDCommandTranslator.get_locale w1St1 "en-US" = Except.ok (w1St1, w1Docs) ∧
    (w1St1.reads = w1St.reads ∨ ∃ p, w1St1.reads = w1St.reads ++ [p]) :=
  c1_get_locale_idempotent_cache w1St w1St1 "en-US" w1Docs (by decide)

/-! ## Claim C7 -/

/-- Claim C7: `unload` empties both the document cache and the
locale-to-file index, `get_locale` afterwards fails with a `KeyError` for
every locale, and a second `unload` leaves the state unchanged. -/
theorem c7_unload_clears_state (st : TranslatorState) (L : String) :
    (JDCommandTranslator.unload st).cached_locales = [] ∧
    (JDCommandTranslator.unload st).LOCALE_TO_FILE = [] ∧
    JDCommandTranslator.get_locale (JDCommandTranslator.unload st) L =
      Except.error (.keyError L) ∧
    JDCommandTranslator.unload (JDCommandTranslator.unload st) =
      JDCommandTranslator.unload st :=
  ⟨rfl, rfl, rfl, rfl⟩

/-! ## Claim C6 -/

/-- Claim C6: when the labeled string's extras carry a non-empty `command`
entry, that entry is the resolved command qualified name used for the
document lookup, and the context's associated data has no influence on the
result of `translate`. -/
theorem c6_command_extra_precedence (st : TranslatorState) (s : LocaleStr)
    (locale : String) (loc : TranslationContextLocation) (d d' : ContextData)
    (c : String)
    (h1 : s.extras.command = some c) (h2 : ¬ c = "") :
    JDCommandTranslator.resolveCommandName s.extras d = some c ∧
    JDCommandTranslator.translate st s locale ⟨loc, d⟩ =
      JDCommandTranslator.translate st s locale ⟨loc, d'⟩ := by
  have hr : ∀ x, JDCommandTranslator.resolveCommandName s.extras x = some c :=
    fun x => resolveCommandName_extras s.extras x c h1 h2
  refine ⟨hr d, ?_⟩
  simp only [JDCommandTranslator.translate, hr]

def w6Doc : LocaleCommand := { name := some "Ping!", description := some "Checks latency" }

def w6St : TranslatorState :=
  { LOCALE_TO_FILE := [("en-US", "en-US.json")],
    cached_locales := [("en-US", [("ping", w6Doc)])],
    fs := [("./locales/en-US.json", [("ping", w6Doc)])] }

def w6Str : LocaleStr := { message := "ping", extras := { command := some "ping" } }

/-- Witness for C6: the extras name `"ping"` wins over a context-derived
command name `"pong"`. -/
theorem c6_witness :
    JDCommandTranslator.resolveCommandName w6Str.extras (.command "pong") = some "ping" ∧
    JDCommandTranslator.translate w6St w6Str "en-US" ⟨.command_name, .command "pong"⟩ =
      JDCommandTranslator.translate w6St w6Str "en-US" ⟨.command_name, .noData⟩ :=
  c6_command_extra_precedence w6St w6Str "en-US" .command_name (.command "pong") .noData
    "ping" (by decide) (by decide)

/-! ## Claim C5 -/

def c5Doc : LocaleCommand :=
  { name := some "Ping!", description := some "Checks latency" }

def c5St : TranslatorState :=
  { LOCALE_TO_FILE := [("en-US", "en-US.json")],
    cached_locales := [("en-US", [("ping", c5Doc)])],
    fs := [("./locales/en-US.json", [("ping", c5Doc)])] }

def c5Str : LocaleStr := { message := "mode", extras := { command := some "ping" } }

/-- Claim C5 counterexample: at location `parameter_name`, with the
document lacking an options entry for the labeled string's text `"mode"`,
the claim predicts `none`, but `translate` returns the document's top-level
name `"Ping!"`: the `parameter_name` branch of the options table is
shadowed by the first dispatch branch. -/
theorem c5_counterexample :
    dictGet (c5Doc.options.getD []) c5Str.message = none ∧
    JDCommandTranslator.translate c5St c5Str "en-US" ⟨.parameter_name, .noData⟩ =
      Except.ok (c5St, some "Ping!") ∧
    some "Ping!" ≠ (none : Option String) := by
  refine ⟨by decide, by decide, by decide⟩

/-- Claim C5 amended: only `parameter_description` consults
`document.options[labeledString.text]` (absent or falsy entry gives
`none`, else the entry's description); `parameter_name` is captured by the
first dispatch branch and always returns the document's top-level name. -/
theorem c5_amended_parameter_dispatch (st : TranslatorState) (s : LocaleStr)
    (locale file : String) (docs : List (String × LocaleCommand))
    (cmdName : String) (cmd : LocaleCommand) (d : ContextData)
    (h1 : dictGet st.LOCALE_TO_FILE locale = some file)
    (h2 : dictGet st.cached_locales locale = some docs)
    (h3 : s.extras.command = some cmdName)
    (h4 : ¬ cmdName = "")
    (h5 : dictGet docs cmdName = some cmd)
    (h6 : cmd.truthy = true) :
    JDCommandTranslator.translate st s locale ⟨.parameter_name, d⟩ =
      Except.ok (st, cmd.name) ∧
    JDCommandTranslator.translate st s locale ⟨.parameter_description, d⟩ =
      (match dictGet (cmd.options.getD []) s.message with
       | none => Except.ok (st, none)
       | some parameter =>
         if parameter.truthy = false then Except.ok (st, none)
         else Except.ok (st, parameter.description)) := by
  constructor
  · rw [translate_cached st s locale file docs cmdName cmd _ d h1 h2 h3 h4 h5 h6
      (by intro h; exact absurd h (by decide))]
    rfl
  · rw [translate_cached st s locale file docs cmdName cmd _ d h1 h2 h3 h4 h5 h6
      (by intro h; exact absurd h (by decide))]
    rfl

def w5Doc : LocaleCommand :=
  { name := some "Ping!",
    options := some [("mode", { name := some "Mode", description := some "the mode" })] }

def w5St : TranslatorState :=
  { LOCALE_TO_FILE := [("en-US", "en-US.json")],
    cached_locales := [("en-US", [("ping", w5Doc)])],
    fs := [("./locales/en-US.json", [("ping", w5Doc)])] }

def w5Str : LocaleStr := { message := "mode", extras := { command := some "ping" } }

/-- Witness for the amended C5 at a concrete document with an options
entry for `"mode"`. -/
theorem c5_amended_witness :
    JDCommandTranslator.translate w5St w5Str "en-US" ⟨.parameter_name, .noData⟩ =
      Except.ok (w5St, w5Doc.name) ∧
    JDCommandTranslator.translate w5St w5Str "en-US" ⟨.parameter_description, .noData⟩ =
      (match dictGet (w5Doc.options.getD []) w5Str.message with
       | none => Except.ok (w5St, none)
       | some parameter =>
         if parameter.truthy = false then Except.ok (w5St, none)
         else Except.ok (w5St, parameter.description)) :=
  c5_amended_parameter_dispatch w5St w5Str "en-US" "en-US.json" [("ping", w5Doc)]
    "ping" w5Doc .noData (by decide) (by decide) (by decide) (by decide) (by decide)
    (by decide)

/-! ## Claim C2 -/

def c2Doc : LocaleCommand := { name := some "Ping!", embeds := some [] }

def c2St : TranslatorState :=
  { LOCALE_TO_FILE := [("en-US", "en-US.json")],
    cached_locales := [("en-US", [("ping", c2Doc)])],
    fs := [("./locales/en-US.json", [("ping", c2Doc)])] }

def c2Str : LocaleStr :=
  { message := "t", extras := { command := some "ping", key := some "embed:0:title" } }

/-- Claim C2 counterexample: the document's embeds list is present but
empty, and `translate` with key `embed:0:title` faults with the unchecked
index error instead of returning `none`. -/
theorem c2_counterexample :
    c2Doc.embeds = some [] ∧
    JDCommandTranslator.translate c2St c2Str "en-US" ⟨.other, .noData⟩ =
      Except.error .indexError := by
  refine ⟨rfl, by decide⟩

/-- Claim C2 amended: for a key `embed:<index>:<field>`, an embeds list
that is present but empty makes `translate` fault with the unchecked index
error; `none` is returned only when the `embeds` key is absent from the
document (then the `[{}]` default supplies a falsy empty dict at index 0). -/
theorem c2_amended_empty_embeds (st : TranslatorState) (s1 s2 : LocaleStr)
    (locale file : String) (docs : List (String × LocaleCommand))
    (nA nB : String) (cmdA cmdB : LocaleCommand) (d : ContextData)
    (k1 k2 p1 i1 f1 p2 i2 f2 : String) (r1 r2 : List String) (m1 : Int)
    (h1 : dictGet st.LOCALE_TO_FILE locale = some file)
    (h2 : dictGet st.cached_locales locale = some docs)
    (hA3 : s1.extras.command = some nA)
    (hA4 : ¬ nA = "")
    (hA5 : dictGet docs nA = some cmdA)
    (hA6 : cmdA.truthy = true)
    (hA7 : s1.extras.key = some k1)
    (hA8 : ¬ k1 = "")
    (hA9 : pyStartsWith k1 "embed" = true)
    (hA10 : splitChar k1 ':' = p1 :: i1 :: f1 :: r1)
    (hA11 : pyInt i1 = some m1)
    (hA12 : cmdA.embeds = some [])
    (hB3 : s2.extras.command = some nB)
    (hB4 : ¬ nB = "")
    (hB5 : dictGet docs nB = some cmdB)
    (hB6 : cmdB.truthy = true)
    (hB7 : s2.extras.key = some k2)
    (hB8 : ¬ k2 = "")
    (hB9 : pyStartsWith k2 "embed" = true)
    (hB10 : splitChar k2 ':' = p2 :: i2 :: f2 :: r2)
    (hB11 : pyInt i2 = some 0)
    (hB12 : cmdB.embeds = none) :
    JDCommandTranslator.translate st s1 locale ⟨.other, d⟩ =
      Except.error .indexError ∧
    JDCommandTranslator.translate st s2 locale ⟨.other, d⟩ =
      Except.ok (st, none) := by
  constructor
  · rw [translate_cached st s1 locale file docs nA cmdA _ d h1 h2 hA3 hA4 hA5 hA6
      (fun _ => by simp [strTruthy, hA7, hA8])]
    simp [JDCommandTranslator.translateLocation, hA7, hA8, hA9, hA10, hA11, hA12,
      pyOrStr, strTruthy, pyListGet_nil]
  · rw [translate_cached st s2 locale file docs nB cmdB _ d h1 h2 hB3 hB4 hB5 hB6
      (fun _ => by simp [strTruthy, hB7, hB8])]
    simp [JDCommandTranslator.translateLocation, hB7, hB8, hB9, hB10, hB11, hB12,
      pyOrStr, strTruthy, pyListGet, LocaleCommandEmbed.truthy]

def w2DocB : LocaleCommand := { name := some "Pong!" }

def w2Docs : List (String × LocaleCommand) := [("ping", c2Doc), ("pong", w2DocB)]

def w2St : TranslatorState :=
  { LOCALE_TO_FILE := [("en-US", "en-US.json")],
    cached_locales := [("en-US", w2Docs)],
    fs := [("./locales/en-US.json", w2Docs)] }

def w2Str1 : LocaleStr :=
  { message := "t", extras := { command := some "ping", key := some "embed:0:title" } }

def w2Str2 : LocaleStr :=
  { message := "t", extras := { command := some "pong", key := some "embed:0:title" } }

/-- Witness for the amended C2 at concrete documents with `embeds: []` and
with no `embeds` key. -/
theorem c2_amended_witness :
    JDCommandTranslator.translate w2St w2Str1 "en-US" ⟨.other, .noData⟩ =
      Except.error .indexError ∧
    JDCommandTranslator.translate w2St w2Str2 "en-US" ⟨.other, .noData⟩ =
      Except.ok (w2St, none) :=
  c2_amended_empty_embeds w2St w2Str1 w2Str2 "en-US" "en-US.json" w2Docs
    "ping" "pong" c2Doc w2DocB .noData
    "embed:0:title" "embed:0:title" "embed" "0" "title" "embed" "0" "title" [] [] 0
    (by decide) (by decide) (by decide) (by decide) (by decide) (by decide)
    (by decide) (by decide) (by decide) (by decide) (by decide) (by decide)
    (by decide) (by decide) (by decide) (by decide) (by decide) (by decide)
    (by decide) (by decide) (by decide) (by decide)

/-! ## Claim C3 -/

/-- Claim C3: with key `embed:0:fields:2:value`, the dispatcher selects
`document.embeds[0].fields[2]` and returns that field's `value`. -/
theorem c3_embed_fields_roundtrip (st : TranslatorState) (s : LocaleStr)
    (locale file : String) (docs : List (String × LocaleCommand))
    (cmdName : String) (cmd : LocaleCommand) (d : ContextData)
    (es : List LocaleCommandEmbed) (e : LocaleCommandEmbed)
    (fl : List LocaleComamndEmbedField) (f : LocaleComamndEmbedField)
    (h1 : dictGet st.LOCALE_TO_FILE locale = some file)
    (h2 : dictGet st.cached_locales locale = some docs)
    (h3 : s.extras.command = some cmdName)
    (h4 : ¬ cmdName = "")
    (h5 : dictGet docs cmdName = some cmd)
    (h6 : cmd.truthy = true)
    (h7 : s.extras.key = some "embed:0:fields:2:value")
    (h8 : cmd.embeds = some es)
    (h9 : es[0]? = some e)
    (h10 : e.fields = some fl)
    (h11 : fl[2]? = some f) :
    JDCommandTranslator.translate st s locale ⟨.other, d⟩ =
      Except.ok (st, f.value) := by
  rw [translate_cached st s locale file docs cmdName cmd _ d h1 h2 h3 h4 h5 h6
    (fun _ => by simp [strTruthy, h7])]
  have he : e.truthy = true := by simp [LocaleCommandEmbed.truthy, h10]
  have hsplit : splitChar "embed:0:fields:2:value" ':' =
      ["embed", "0", "fields", "2", "value"] := by decide
  have hsw : pyStartsWith "embed:0:fields:2:value" "embed" = true := by decide
  have hi0 : pyInt "0" = some 0 := by decide
  have hi2 : pyInt "2" = some 2 := by decide
  have hlow : pyLower "fields" = "fields" := by decide
  obtain ⟨fn, fv⟩ := f
  cases fn <;> cases fv <;>
    simp [JDCommandTranslator.translateLocation, h7, h8, h9, h10, h11, hsplit, he, hsw,
      hi0, hi2, hlow, pyOrStr, strTruthy, pyListGet, LocaleComamndEmbedField.truthy]

def w3Field : LocaleComamndEmbedField := { name := some "f2n", value := some "f2v" }

def w3Embed : LocaleCommandEmbed :=
  { title := some "T0",
    fields := some [{ name := some "f0n", value := some "f0v" },
                    { name := some "f1n", value := some "f1v" }, w3Field] }

def w3Doc : LocaleCommand := { name := some "Ping!", embeds := some [w3Embed] }

def w3St : TranslatorState :=
  { LOCALE_TO_FILE := [("en-US", "en-US.json")],
    cached_locales := [("en-US", [("ping", w3Doc)])],
    fs := [("./locales/en-US.json", [("ping", w3Doc)])] }

def w3Str : LocaleStr :=
  { message := "t",
    extras := { command := some "ping", key := some "embed:0:fields:2:value" } }

/-- Witness for C3 at a concrete document whose embed 0 has a field at
index 2. -/
theorem c3_witness :
    JDCommandTranslator.translate w3St w3Str "en-US" ⟨.other, .noData⟩ =
      Except.ok (w3St, w3Field.value) :=
  c3_embed_fields_roundtrip w3St w3Str "en-US" "en-US.json" [("ping", w3Doc)]
    "ping" w3Doc .noData [w3Embed]  w3Embed
    [{ name := some "f0n", value := some "f0v" },
     { name := some "f1n", value := some "f1v" }, w3Field] w3Field
    (by decide) (by decide) (by decide) (by decide) (by decide) (by decide)
    (by decide) (by decide) (by decide) (by decide) (by decide)

/-! ## Claim C4 -/

def c4Doc : LocaleCommand := { name := some "Ping!" }

def c4St : TranslatorState :=
  { LOCALE_TO_FILE := [("en-US", "en-US.json")],
    cached_locales := [("en-US", [("ping", c4Doc)])],
    fs := [("./locales/en-US.json", [("ping", c4Doc)])] }

def c4Str : LocaleStr :=
  { message := "t", extras := { command := some "ping", key := some "embed:0:fields:2" } }

/-- Claim C4 counterexample: the command document exists (and has no
`embeds` key), yet key `embed:0:fields:2` returns `none` instead of
failing with `InvalidEmbedKey`: the `[{}]` default supplies a falsy embed
at index 0 and the dispatcher returns before ever validating the key's
tail. -/
theorem c4_counterexample :
    dictGet c4St.cached_locales "en-US" = some [("ping", c4Doc)] ∧
    JDCommandTranslator.translate c4St c4Str "en-US" ⟨.other, .noData⟩ =
      Except.ok (c4St, none) := by
  refine ⟨by decide, by decide⟩

/-- Claim C4 amended: key `embed:0` always fails with `InvalidEmbedKey`
(whose message carries the offending key and an example), whatever the
document's embeds; keys `embed:0:fields:2` and `embed:0:bogus` fail with
`InvalidEmbedKey` / `InvalidEmbedField` respectively only once
`document.embeds[0]` exists and is non-empty — with `embeds` absent both
keys return `none` instead. -/
theorem c4_amended_malformed_keys (st : TranslatorState)
    (s1 s2 s3 s4 s5 : LocaleStr)
    (locale file : String) (docs : List (String × LocaleCommand))
    (n0 nP nQ : String) (cmd0 cmdP cmdQ : LocaleCommand) (d : ContextData)
    (es : List LocaleCommandEmbed) (e : LocaleCommandEmbed)
    (h1 : dictGet st.LOCALE_TO_FILE locale = some file)
    (h2 : dictGet st.cached_locales locale = some docs)
    (h30 : ¬ n0 = "")
    (h3P : ¬ nP = "")
    (h3Q : ¬ nQ = "")
    (h40 : dictGet docs n0 = some cmd0)
    (h4P : dictGet docs nP = some cmdP)
    (h4Q : dictGet docs nQ = some cmdQ)
    (h50 : cmd0.truthy = true)
    (h5P : cmdP.truthy = true)
    (h5Q : cmdQ.truthy = true)
    (hs1 : s1.extras.command = some n0)
    (hs2 : s2.extras.command = some nP)
    (hs3 : s3.extras.command = some nP)
    (hs4 : s4.extras.command = some nQ)
    (hs5 : s5.extras.command = some nQ)
    (hk1 : s1.extras.key = some "embed:0")
    (hk2 : s2.extras.key = some "embed:0:fields:2")
    (hk3 : s3.extras.key = some "embed:0:bogus")
    (hk4 : s4.extras.key = some "embed:0:fields:2")
    (hk5 : s5.extras.key = some "embed:0:bogus")
    (hP1 : cmdP.embeds = some es)
    (hP2 : es[0]? = some e)
    (hP3 : e.truthy = true)
    (hQ1 : cmdQ.embeds = none) :
    JDCommandTranslator.translate st s1 locale ⟨.other, d⟩ =
      Except.error (.invalidEmbedKey (JDCommandTranslator.embedKeyMessage "embed:0")) ∧
    JDCommandTranslator.embedKeyMessage "embed:0" =
      "Invalid type for embed. Expected `embed:<index>:<field>`. Got " ++ "embed:0" ++
        ". Example: `embed:0:title`." ∧
    JDCommandTranslator.translate st s2 locale ⟨.other, d⟩ =
      Except.error (.invalidEmbedKey
        (JDCommandTranslator.embedFieldsKeyMessage "embed:0:fields:2")) ∧
    JDCommandTranslator.embedFieldsKeyMessage "embed:0:fields:2" =
      "Invalid type for embed. Expected `embed:<index>:fields:<field_index>:name`. Got " ++
        "embed:0:fields:2" ++ ". Example: `embed:0:fields:0:name`." ∧
    JDCommandTranslator.translate st s3 locale ⟨.other, d⟩ =
      Except.error (.invalidEmbedField
        "Field bogus is not valid. Expected `title`, `description`, `footer`, `author` or `fields`.") ∧
    JDCommandTranslator.translate st s4 locale ⟨.other, d⟩ =
      Except.ok (st, none) ∧
    JDCommandTranslator.translate st s5 locale ⟨.other, d⟩ =
      Except.ok (st, none) := by
  refine ⟨?_, rfl, ?_, rfl, ?_, ?_, ?_⟩
  · rw [translate_cached st s1 locale file docs n0 cmd0 _ d h1 h2 hs1 h30 h40 h50
      (fun _ => by simp [strTruthy, hk1])]
    have hsplit : splitChar "embed:0" ':' = ["embed", "0"] := by decide
    have hsw : pyStartsWith "embed:0" "embed" = true := by decide
    simp [JDCommandTranslator.translateLocation, hk1, hsplit, hsw, pyOrStr, strTruthy]
  · rw [translate_cached st s2 locale file docs nP cmdP _ d h1 h2 hs2 h3P h4P h5P
      (fun _ => by simp [strTruthy, hk2])]
    have hsplit : splitChar "embed:0:fields:2" ':' = ["embed", "0", "fields", "2"] := by
      decide
    have hsw : pyStartsWith "embed:0:fields:2" "embed" = true := by decide
    have hi0 : pyInt "0" = some 0 := by decide
    have hlow : pyLower "fields" = "fields" := by decide
    simp [JDCommandTranslator.translateLocation, hk2, hP1, hP2, hP3, hsplit, hsw, hi0,
      hlow, pyOrStr, strTruthy, pyListGet]
  · rw [translate_cached st s3 locale file docs nP cmdP _ d h1 h2 hs3 h3P h4P h5P
      (fun _ => by simp [strTruthy, hk3])]
    have hsplit : splitChar "embed:0:bogus" ':' = ["embed", "0", "bogus"] := by decide
    have hsw : pyStartsWith "embed:0:bogus" "embed" = true := by decide
    have hi0 : pyInt "0" = some 0 := by decide
    have hlow : pyLower "bogus" = "bogus" := by decide
    simp [JDCommandTranslator.translateLocation, hk3, hP1, hP2, hP3, hsplit, hsw, hi0,
      hlow, pyOrStr, strTruthy, pyListGet]
  · rw [translate_cached st s4 locale file docs nQ cmdQ _ d h1 h2 hs4 h3Q h4Q h5Q
      (fun _ => by simp [strTruthy, hk4])]
    have hsplit : splitChar "embed:0:fields:2" ':' = ["embed", "0", "fields", "2"] := by
      decide
    have hsw : pyStartsWith "embed:0:fields:2" "embed" = true := by decide
    have hi0 : pyInt "0" = some 0 := by decide
    simp [JDCommandTranslator.translateLocation, hk4, hQ1, hsplit, hsw, hi0, pyOrStr,
      strTruthy, pyListGet, LocaleCommandEmbed.truthy]
  · rw [translate_cached st s5 locale file docs nQ cmdQ _ d h1 h2 hs5 h3Q h4Q h5Q
      (fun _ => by simp [strTruthy, hk5])]
    have hsplit : splitChar "embed:0:bogus" ':' = ["embed", "0", "bogus"] := by decide
    have hsw : pyStartsWith "embed:0:bogus" "embed" = true := by decide
    have hi0 : pyInt "0" = some 0 := by decide
    simp [JDCommandTranslator.translateLocation, hk5, hQ1, hsplit, hsw, hi0, pyOrStr,
      strTruthy, pyListGet, LocaleCommandEmbed.truthy]

def w4Embed : LocaleCommandEmbed := { title := some "T0" }

def w4Doc : LocaleCommand := { name := some "Ping!", embeds := some [w4Embed] }

def w4DocQ : LocaleCommand := { name := some "Pong!" }

def w4Docs : List (String × LocaleCommand) := [("ping", w4Doc), ("pong", w4DocQ)]

def w4St : TranslatorState :=
  { LOCALE_TO_FILE := [("en-US", "en-US.json")],
    cached_locales := [("en-US", w4Docs)],
    fs := [("./locales/en-US.json", w4Docs)] }

def w4Str1 : LocaleStr :=
  { message := "t", extras := { command := some "pong", key := some "embed:0" } }

def w4Str2 : LocaleStr :=
  { message := "t", extras := { command := some "ping", key := some "embed:0:fields:2" } }

def w4Str3 : LocaleStr :=
  { message := "t", extras := { command := some "ping", key := some "embed:0:bogus" } }

def w4Str4 : LocaleStr :=
  { message := "t", extras := { command := some "pong", key := some "embed:0:fields:2" } }

def w4Str5 : LocaleStr :=
  { message := "t", extras := { command := some "pong", key := some "embed:0:bogus" } }

/-- Witness for the amended C4: `embed:0` fails even against the document
with no embeds at all, the two tail keys fail against the document whose
embed 0 is present and non-empty, and return `none` against the document
with no `embeds` key. -/
theorem c4_amended_witness :
    JDCommandTranslator.translate w4St w4Str1 "en-US" ⟨.other, .noData⟩ =
      Except.error (.invalidEmbedKey (JDCommandTranslator.embedKeyMessage "embed:0")) ∧
    JDCommandTranslator.embedKeyMessage "embed:0" =
      "Invalid type for embed. Expected `embed:<index>:<field>`. Got " ++ "embed:0" ++
        ". Example: `embed:0:title`." ∧
    JDCommandTranslator.translate w4St w4Str2 "en-US" ⟨.other, .noData⟩ =
      Except.error (.invalidEmbedKey
        (JDCommandTranslator.embedFieldsKeyMessage "embed:0:fields:2")) ∧
    JDCommandTranslator.embedFieldsKeyMessage "embed:0:fields:2" =
      "Invalid type for embed. Expected `embed:<index>:fields:<field_index>:name`. Got " ++
        "embed:0:fields:2" ++ ". Example: `embed:0:fields:0:name`." ∧
    JDCommandTranslator.translate w4St w4Str3 "en-US" ⟨.other, .noData⟩ =
      Except.error (.invalidEmbedField
        "Field bogus is not valid. Expected `title`, `description`, `footer`, `author` or `fields`.") ∧
    JDCommandTranslator.translate w4St w4Str4 "en-US" ⟨.other, .noData⟩ =
      Except.ok (w4St, none) ∧
    JDCommandTranslator.translate w4St w4Str5 "en-US" ⟨.other, .noData⟩ =
      Except.ok (w4St, none) :=
  c4_amended_malformed_keys w4St w4Str1 w4Str2 w4Str3 w4Str4 w4Str5 "en-US"
    "en-US.json" w4Docs "pong" "ping" "pong" w4DocQ w4Doc w4DocQ .noData
    [w4Embed] w4Embed
    (by decide) (by decide) (by decide) (by decide) (by decide) (by decide)
    (by decide) (by decide) (by decide) (by decide) (by decide) (by decide)
    (by decide) (by decide) (by decide) (by decide) (by decide) (by decide)
    (by decide) (by decide) (by decide) (by decide) (by decide) (by decide)
    (by decide)

/-! ## Claim C8 -/

def c8Doc : LocaleCommand :=
  { name := some "Ping!",
    options := some [("", { choices := some ["a"] })] }

def c8St : TranslatorState :=
  { LOCALE_TO_FILE := [("en-US", "en-US.json")],
    cached_locales := [("en-US", [("ping", c8Doc)])],
    fs := [("./locales/en-US.json", [("ping", c8Doc)])] }

def c8Str : LocaleStr :=
  { message := "t",
    extras := { command := some "ping", index := some 0, option := some "" } }

/-- Claim C8 counterexample: the extras carry both an `index` entry and an
`option` entry (the empty string), and the document does have choices
under that option name, yet `translate` fails with the missing-metadata
error instead of returning the choice: `if not option_name` treats the
present-but-empty option entry as missing. -/
theorem c8_counterexample :
    c8Str.extras.index = some 0 ∧
    c8Str.extras.option = some "" ∧
    ((dictGet (c8Doc.options.getD []) "").getD {}).choices = some ["a"] ∧
    JDCommandTranslator.translate c8St c8Str "en-US" ⟨.choice_name, .noData⟩ =
      Except.error (.missingChoiceMetadata JDCommandTranslator.choiceOptionMessage) := by
  refine ⟨rfl, rfl, by decide, by decide⟩

/-- Claim C8 amended: at location `choice_name`, a missing `index` extra,
or an `option` extra that is absent or the empty string, fails with
`MissingChoiceMetadata`; otherwise an absent or empty choices list yields
`none`; a present non-empty choices list yields the element at the
(non-negative) index, and an out-of-range index faults with the unchecked
index error. -/
theorem c8_amended_choice_dispatch (st : TranslatorState)
    (s1 s2 s3 s4 s5 : LocaleStr)
    (locale file : String) (docs : List (String × LocaleCommand))
    (cmdName : String) (cmd : LocaleCommand) (d : ContextData)
    (i2 i3 : Int) (n4 m5 : Nat) (o3 o4 : String)
    (opt4 : LocaleCommandOption) (cs4 : List String) (c4 : String)
    (h1 : dictGet st.LOCALE_TO_FILE locale = some file)
    (h2 : dictGet st.cached_locales locale = some docs)
    (h4 : ¬ cmdName = "")
    (h5 : dictGet docs cmdName = some cmd)
    (h6 : cmd.truthy = true)
    (hc1 : s1.extras.command = some cmdName)
    (hc2 : s2.extras.command = some cmdName)
    (hc3 : s3.extras.command = some cmdName)
    (hc4 : s4.extras.command = some cmdName)
    (hc5 : s5.extras.command = some cmdName)
    (hA1 : s1.extras.index = none)
    (hB1 : s2.extras.index = some i2)
    (hB2 : strTruthy s2.extras.option = false)
    (hC1 : s3.extras.index = some i3)
    (hC2 : s3.extras.option = some o3)
    (hC3 : ¬ o3 = "")
    (hC4 : listTruthy ((dictGet (cmd.options.getD []) o3).getD {}).choices = false)
    (hD1 : s4.extras.index = some ((n4 : Nat) : Int))
    (hD2 : s4.extras.option = some o4)
    (hD3 : ¬ o4 = "")
    (hD4 : dictGet (cmd.options.getD []) o4 = some opt4)
    (hD5 : opt4.choices = some cs4)
    (hD6 : cs4[n4]? = some c4)
    (hE1 : s5.extras.index = some ((m5 : Nat) : Int))
    (hE2 : s5.extras.option = some o4)
    (hE3 : cs4.length ≤ m5) :
    JDCommandTranslator.translate st s1 locale ⟨.choice_name, d⟩ =
      Except.error (.missingChoiceMetadata JDCommandTranslator.choiceIndexMessage) ∧
    JDCommandTranslator.translate st s2 locale ⟨.choice_name, d⟩ =
      Except.error (.missingChoiceMetadata JDCommandTranslator.choiceOptionMessage) ∧
    JDCommandTranslator.translate st s3 locale ⟨.choice_name, d⟩ =
      Except.ok (st, none) ∧
    JDCommandTranslator.translate st s4 locale ⟨.choice_name, d⟩ =
      Except.ok (st, some c4) ∧
    JDCommandTranslator.translate st s5 locale ⟨.choice_name, d⟩ =
      Except.error .indexError := by
  have hne : cs4 ≠ [] := by
    intro h
    subst h
    simp at hD6
  refine ⟨?_, ?_, ?_, ?_, ?_⟩
  · rw [translate_cached st s1 locale file docs cmdName cmd _ d h1 h2 hc1 h4 h5 h6
      (fun h => absurd h (by decide))]
    simp [JDCommandTranslator.translateLocation, hA1]
  · rw [translate_cached st s2 locale file docs cmdName cmd _ d h1 h2 hc2 h4 h5 h6
      (fun h => absurd h (by decide))]
    simp [JDCommandTranslator.translateLocation, hB1, hB2]
  · rw [translate_cached st s3 locale file docs cmdName cmd _ d h1 h2 hc3 h4 h5 h6
      (fun h => absurd h (by decide))]
    simp [JDCommandTranslator.translateLocation, hC1, hC2, hC3, hC4, strTruthy]
  · rw [translate_cached st s4 locale file docs cmdName cmd _ d h1 h2 hc4 h4 h5 h6
      (fun h => absurd h (by decide))]
    simp [JDCommandTranslator.translateLocation, hD1, hD2, hD3, hD4, hD5, hD6,
      strTruthy, listTruthy, pyListGet, List.isEmpty_iff, hne]
  · rw [translate_cached st s5 locale file docs cmdName cmd _ d h1 h2 hc5 h4 h5 h6
      (fun h => absurd h (by decide))]
    simp [JDCommandTranslator.translateLocation, hE1, hE2, hD3, hD4, hD5, hE3,
      strTruthy, listTruthy, pyListGet, List.isEmpty_iff, hne,
      List.getElem?_eq_none hE3]

def w8Opt : LocaleCommandOption := { name := some "Mode", choices := some ["a", "b"] }

def w8Doc : LocaleCommand :=
  { name := some "Ping!", options := some [("mode", w8Opt)] }

def w8St : TranslatorState :=
  { LOCALE_TO_FILE := [("en-US", "en-US.json")],
    cached_locales := [("en-US", [("ping", w8Doc)])],
    fs := [("./locales/en-US.json", [("ping", w8Doc)])] }

def w8Str1 : LocaleStr := { message := "t", extras := { command := some "ping" } }

def w8Str2 : LocaleStr :=
  { message := "t", extras := { command := some "ping", index := some 0 } }

def w8Str3 : LocaleStr :=
  { message := "t",
    extras := { command := some "ping", index := some 0, option := some "zz" } }

def w8Str4 : LocaleStr :=
  { message := "t",
    extras := { command := some "ping", index := some 1, option := some "mode" } }

def w8Str5 : LocaleStr :=
  { message := "t",
    extras := { command := some "ping", index := some 5, option := some "mode" } }

/-- Witness for the amended C8 at a concrete document with choices
`["a", "b"]` under option `"mode"`. -/
theorem c8_amended_witness :
    JDCommandTranslator.translate w8St w8Str1 "en-US" ⟨.choice_name, .noData⟩ =
      Except.error (.missingChoiceMetadata JDCommandTranslator.choiceIndexMessage) ∧
    JDCommandTranslator.translate w8St w8Str2 "en-US" ⟨.choice_name, .noData⟩ =
      Except.error (.missingChoiceMetadata JDCommandTranslator.choiceOptionMessage) ∧
    JDCommandTranslator.translate w8St w8Str3 "en-US" ⟨.choice_name, .noData⟩ =
      Except.ok (w8St, none) ∧
    JDCommandTranslator.translate w8St w8Str4 "en-US" ⟨.choice_name, .noData⟩ =
      Except.ok (w8St, some "b") ∧
    JDCommandTranslator.translate w8St w8Str5 "en-US" ⟨.choice_name, .noData⟩ =
      Except.error .indexError :=
  c8_amended_choice_dispatch w8St w8Str1 w8Str2 w8Str3 w8Str4 w8Str5 "en-US"
    "en-US.json" [("ping", w8Doc)] "ping" w8Doc .noData 0 0 1 5 "zz" "mode" w8Opt
    ["a", "b"] "b"
    (by decide) (by decide) (by decide) (by decide) (by decide) (by decide)
    (by decide) (by decide) (by decide) (by decide) (by decide) (by decide)
    (by decide) (by decide) (by decide) (by decide) (by decide) (by decide)
    (by decide) (by decide) (by decide) (by decide) (by decide) (by decide)
    (by decide) (by decide)

/-! ## Claim C10 -/

def c10Doc : LocaleCommand := { name := some "Ping!" }

def c10St : TranslatorState :=
  { LOCALE_TO_FILE := [("en-US", "en-US.json")],
    cached_locales := [("en-US", [("ping", c10Doc)])],
    fs := [("./locales/en-US.json", [("ping", c10Doc)])] }

def c10Str : LocaleStr :=
  { message := "t",
    extras := { command := some "ping", key := some "embed:0:fields:y:name" } }

/-- Claim C10 counterexample: the fieldIndex segment `y` is not a decimal
integer, yet with the `embeds` key absent from the document the call
returns `none` — `int(field_idx)` is never reached, so no
integer-conversion error is raised, contradicting the claim's universal
statement for the fields form. -/
theorem c10_counterexample :
    c10Doc.embeds = none ∧
    JDCommandTranslator.translate c10St c10Str "en-US" ⟨.other, .noData⟩ =
      Except.ok (c10St, none) := by
  refine ⟨rfl, by decide⟩

/-- Claim C10 amended: for keys starting with `embed` whose index segment
is not a decimal integer string, `translate` raises the unchecked
integer-conversion error (`intConversionError`, the uncaught `int()`
`ValueError`), not the declared `InvalidEmbedKey` error; for the `fields`
form, a non-decimal fieldIndex segment raises the same unchecked error
once `document.embeds[index]` is present and non-empty, while with the
`embeds` key absent the `[{}]` default makes index 0 falsy and such a
call returns `none` before the fieldIndex conversion is reached. -/
theorem c10_nonnumeric_index_unchecked (st : TranslatorState)
    (s1 s2 s3 : LocaleStr)
    (locale file : String) (docs : List (String × LocaleCommand))
    (cmdName nC : String) (cmd cmdC : LocaleCommand) (d : ContextData)
    (kA pA iA fA : String) (rA : List String)
    (kB pB iB fB jB tB : String) (nB : Int)
    (kC pC iC fC jC tC : String)
    (es : List LocaleCommandEmbed) (e : LocaleCommandEmbed)
    (h1 : dictGet st.LOCALE_TO_FILE locale = some file)
    (h2 : dictGet st.cached_locales locale = some docs)
    (h4 : ¬ cmdName = "")
    (h5 : dictGet docs cmdName = some cmd)
    (h6 : cmd.truthy = true)
    (hA1 : s1.extras.command = some cmdName)
    (hA2 : s1.extras.key = some kA)
    (hA3 : ¬ kA = "")
    (hA4 : pyStartsWith kA "embed" = true)
    (hA5 : splitChar kA ':' = pA :: iA :: fA :: rA)
    (hA6 : pyInt iA = none)
    (hB1 : s2.extras.command = some cmdName)
    (hB2 : s2.extras.key = some kB)
    (hB3 : ¬ kB = "")
    (hB4 : pyStartsWith kB "embed" = true)
    (hB5 : splitChar kB ':' = [pB, iB, fB, jB, tB])
    (hB6 : pyInt iB = some nB)
    (hB7 : pyLower fB = "fields")
    (hB8 : pyInt jB = none)
    (hB9 : cmd.embeds = some es)
    (hB10 : pyListGet es nB = some e)
    (hB11 : e.truthy = true)
    (hC1 : s3.extras.command = some nC)
    (hC2 : ¬ nC = "")
    (hC3 : dictGet docs nC = some cmdC)
    (hC4 : cmdC.truthy = true)
    (hC5 : s3.extras.key = some kC)
    (hC6 : ¬ kC = "")
    (hC7 : pyStartsWith kC "embed" = true)
    (hC8 : splitChar kC ':' = [pC, iC, fC, jC, tC])
    (hC9 : pyInt iC = some 0)
    (hC10 : pyInt jC = none)
    (hC11 : cmdC.embeds = none) :
    JDCommandTranslator.translate st s1 locale ⟨.other, d⟩ =
      Except.error (.intConversionError iA) ∧
    JDCommandTranslator.translate st s2 locale ⟨.other, d⟩ =
      Except.error (.intConversionError jB) ∧
    JDCommandTranslator.translate st s3 locale ⟨.other, d⟩ =
      Except.ok (st, none) := by
  refine ⟨?_, ?_, ?_⟩
  · rw [translate_cached st s1 locale file docs cmdName cmd _ d h1 h2 hA1 h4 h5 h6
      (fun _ => by simp [strTruthy, hA2, hA3])]
    simp [JDCommandTranslator.translateLocation, hA2, hA3, hA4, hA5, hA6,
      pyOrStr, strTruthy]
  · rw [translate_cached st s2 locale file docs cmdName cmd _ d h1 h2 hB1 h4 h5 h6
      (fun _ => by simp [strTruthy, hB2, hB3])]
    simp [JDCommandTranslator.translateLocation, hB2, hB3, hB4, hB5, hB6, hB7, hB8,
      hB9, hB10, hB11, pyOrStr, strTruthy]
  · rw [translate_cached st s3 locale file docs nC cmdC _ d h1 h2 hC1 hC2 hC3 hC4
      (fun _ => by simp [strTruthy, hC5, hC6])]
    simp [JDCommandTranslator.translateLocation, hC5, hC6, hC7, hC8, hC9, hC10, hC11,
      pyOrStr, strTruthy, pyListGet, LocaleCommandEmbed.truthy]

def w10Embed : LocaleCommandEmbed := { title := some "T0" }

def w10Doc : LocaleCommand := { name := some "Ping!", embeds := some [w10Embed] }

def w10DocC : LocaleCommand := { name := some "Pong!" }

def w10Docs : List (String × LocaleCommand) := [("ping", w10Doc), ("pong", w10DocC)]

def w10St : TranslatorState :=
  { LOCALE_TO_FILE := [("en-US", "en-US.json")],
    cached_locales := [("en-US", w10Docs)],
    fs := [("./locales/en-US.json", w10Docs)] }

def w10Str1 : LocaleStr :=
  { message := "t", extras := { command := some "ping", key := some "embed:x:title" } }

def w10Str2 : LocaleStr :=
  { message := "t",
    extras := { command := some "ping", key := some "embed:0:fields:y:name" } }

def w10Str3 : LocaleStr :=
  { message := "t",
    extras := { command := some "pong", key := some "embed:0:fields:y:name" } }

/-- Witness for the amended C10 at the concrete keys `embed:x:title` and
`embed:0:fields:y:name`, the latter against both a document whose embed 0
is present and non-empty and a document with no `embeds` key. -/
theorem c10_witness :
    JDCommandTranslator.translate w10St w10Str1 "en-US" ⟨.other, .noData⟩ =
      Except.error (.intConversionError "x") ∧
    JDCommandTranslator.translate w10St w10Str2 "en-US" ⟨.other, .noData⟩ =
      Except.error (.intConversionError "y") ∧
    JDCommandTranslator.translate w10St w10Str3 "en-US" ⟨.other, .noData⟩ =
      Except.ok (w10St, none) :=
  c10_nonnumeric_index_unchecked w10St w10Str1 w10Str2 w10Str3 "en-US" "en-US.json"
    w10Docs "ping" "pong" w10Doc w10DocC .noData
    "embed:x:title" "embed" "x" "title" []
    "embed:0:fields:y:name" "embed" "0" "fields" "y" "name" 0
    "embed:0:fields:y:name" "embed" "0" "fields" "y" "name"
    [w10Embed] w10Embed
    (by decide) (by decide) (by decide) (by decide) (by decide) (by decide)
    (by decide) (by decide) (by decide) (by decide) (by decide) (by decide)
    (by decide) (by decide) (by decide) (by decide) (by decide) (by decide)
    (by decide) (by decide) (by decide) (by decide) (by decide) (by decide)
    (by decide) (by decide) (by decide) (by decide) (by decide) (by decide)
    (by decide) (by decide) (by decide)

def w9Docs : List (String × LocaleCommand) := [("ping", { name := some "Ping!" })]

def w9St : TranslatorState := { fs := [("./locales/en-US.json", w9Docs)] }

/-- Witness for C9: the scan `["en-US.json", "bogus.json", "de.json"]`
aborts at the invalid stem `bogus`, with `en-US` still registered and
cached. -/
theorem c9_witness :
    (JDCommandTranslator.load ["en-US.json", "bogus.json", "de.json"] w9St).2 =
      some (.invalidLocaleFile
        "Invalid locale file bogus.json. Expected a file like `en-US.json`.") ∧
    (dictGet (JDCommandTranslator.load ["en-US.json", "bogus.json", "de.json"]
      w9St).1.LOCALE_TO_FILE "en-US").isSome = true ∧
    (dictGet (JDCommandTranslator.load ["en-US.json", "bogus.json", "de.json"]
      w9St).1.cached_locales "en-US").isSome = true := by
  have h := c9_load_partial_state ["en-US.json"] "bogus.json" ["de.json"] w9St
    (by decide) (by decide) (by decide)
  have h2 := h.2 "en-US.json" (by simp)
  have hstem : fileStem "en-US.json" = "en-US" := by decide
  rw [hstem] at h2
  exact ⟨h.1, h2.1, h2.2⟩
